import Mathlib

/-!
Verification of the job dispatch and execution subsystem of the
media-pipeline repository (`src/python_frontend/worker.py`,
`src/python_frontend/app.py`) against its natural-language specification.

The Python code is shallowly embedded: JSON-compatible values become the
inductive `Json`; the spawned worker process's observable behaviour (exit
code, stdout, stderr, or exceeding the timeout) and the behaviour of
`json.loads` are environment parameters; exceptions become `Except`.
-/

set_option autoImplicit false

namespace MediaPipeline

/-- JSON-compatible values (Python's `None`, `bool`, `int`, `str`, `list`,
`dict` as produced by `json.loads` and consumed by `json.dumps`).
Numbers are modelled as integers; none of the verified code paths
distinguishes floats. -/
inductive Json where
  | null
  | bool (b : Bool)
  | num (n : Int)
  | str (s : String)
  | arr (xs : List Json)
  | obj (fields : List (String × Json))

/-- Python `dict` key lookup (`d[k]` / `d.get(k)`) on a parsed JSON object.
Dicts produced by `json.loads` have unique keys, so first-match lookup is
faithful. -/
def getField : List (String × Json) → String → Option Json
  | [], _ => none
  | (k, v) :: rest, key => if k = key then some v else getField rest key

mutual

/-- Python `repr` of a JSON-compatible value, used by `str` on containers
(string escaping inside `repr` is not modelled; no verified property
depends on it). -/
def pyRepr : Json → String
  | .null => "None"
  | .bool true => "True"
  | .bool false => "False"
  | .num n => toString n
  | .str s => "'" ++ s ++ "'"
  | .arr xs => "[" ++ pyReprSeq xs ++ "]"
  | .obj fs => "\x7b" ++ pyReprFields fs ++ "\x7d"

/-- Comma-separated `repr` of the elements of a Python list. -/
def pyReprSeq : List Json → String
  | [] => ""
  | [x] => pyRepr x
  | x :: xs => pyRepr x ++ ", " ++ pyReprSeq xs

/-- Comma-separated `repr` of the entries of a Python dict. -/
def pyReprFields : List (String × Json) → String
  | [] => ""
  | [(k, v)] => "'" ++ k ++ "': " ++ pyRepr v
  | (k, v) :: xs => "'" ++ k ++ "': " ++ pyRepr v ++ ", " ++ pyReprFields xs

end

/-- Python `str()` of a JSON-compatible value, as applied by an f-string
interpolation: strings verbatim, everything else via `repr`. -/
def pyStr : Json → String
  | .str s => s
  | j => pyRepr j

/-- The Python type name of a JSON-compatible value, as it appears in
`AttributeError` messages. -/
def pyTypeName : Json → String
  | .null => "NoneType"
  | .bool _ => "bool"
  | .num _ => "int"
  | .str _ => "str"
  | .arr _ => "list"
  | .obj _ => "dict"

/-- The exceptions `execute_rust_worker` can raise: `FileNotFoundError`
(worker.py line 20, the spec's ExecutorUnavailable condition) and
`RuntimeError` (all other failure paths), each carrying its message. -/
inductive WorkerError where
  | fileNotFound (message : String)
  | runtimeError (message : String)

/-- The message carried by a raised exception (`str(e)`). -/
def workerErrorMessage : WorkerError → String
  | .fileNotFound m => m
  | .runtimeError m => m

/-- Observable behaviour of the `subprocess.run` call in worker.py lines
28-34: either the process fails to exit within the timeout
(`subprocess.run` kills it and raises `subprocess.TimeoutExpired`), or it
exits with a return code having written the given stdout and stderr.
Spawn-time OS errors after the existence check are outside the modelled
domain. -/
inductive ProcOutcome where
  | timedOut
  | exited (returncode : Int) (stdout stderr : String)

/-- Environment of one `execute_rust_worker` invocation:
whether `RUST_WORKER_PATH.exists()` (worker.py line 19) holds, the path's
text, the configured `config["processing"]["timeout_seconds"]`, the
behaviour of `json.loads` (`parse s = some j` when `s` parses to `j`,
`none` when `json.loads` raises `JSONDecodeError`), and the behaviour the
worker process would exhibit if spawned. -/
structure WorkerEnv where
  workerExists : Bool
  rust_worker_path : String
  timeout_seconds : Nat
  parse : String → Option Json
  outcome : ProcOutcome

/-- Shallow embedding of `execute_rust_worker` (worker.py lines 13-63).

Control flow of the source, traced for the embedding:
* line 19: the existence check fails → `FileNotFoundError` is raised
  outside the `try`, so no handler wraps it and no process is spawned.
* timeout → `subprocess.TimeoutExpired` is caught at line 58 and a
  `RuntimeError("Job timed out after N seconds")` is raised from inside
  that `except` clause; an exception raised in an `except` clause is not
  caught by the later `except Exception` clause of the same `try`, so it
  propagates unwrapped.
* exit code 0, stdout parses (lines 36-39) → the parsed value is returned.
* exit code 0, stdout unparsable (lines 40-46) → the degraded success
  dict is returned.
* non-zero exit (lines 47-56): the `raise RuntimeError` at line 50 (and
  the one at lines 52-56, raised from the nested `except
  json.JSONDecodeError` handler) occurs inside the body of the outer
  `try`, so it IS caught by the catch-all `except Exception as e` at line
  62 and re-raised as `RuntimeError("Failed to execute Rust worker: " +
  str(e))`. When the parsed stdout is not a dict, `error_output.get` at
  line 50 raises `AttributeError`, likewise caught and wrapped. -/
def execute_rust_worker (env : WorkerEnv) (job_payload : Json) : Except WorkerError Json :=
  if !env.workerExists then
    .error (.fileNotFound ("Rust worker binary not found at " ++ env.rust_worker_path ++
      ". Please build it first with: cd rust_worker && cargo build --release"))
  else
    match env.outcome with
    | .timedOut =>
        .error (.runtimeError ("Job timed out after " ++ toString env.timeout_seconds ++ " seconds"))
    | .exited returncode stdout stderr =>
        if returncode = 0 then
          match env.parse stdout with
          | some output => .ok output
          | none =>
              .ok (.obj [("success", .bool true), ("message", .str "Job completed"),
                ("output", .str stdout), ("stderr", .str stderr)])
        else
          match env.parse stdout with
          | some (.obj fields) =>
              .error (.runtimeError ("Failed to execute Rust worker: " ++
                ("Rust worker failed: " ++ pyStr ((getField fields "message").getD (.str "Unknown error")))))
          | some other =>
              .error (.runtimeError ("Failed to execute Rust worker: " ++
                ("'" ++ pyTypeName other ++ "' object has no attribute 'get'")))
          | none =>
              .error (.runtimeError ("Failed to execute Rust worker: " ++
                ("Rust worker failed with exit code " ++ toString returncode ++
                  "\nstdout: " ++ stdout ++ "\nstderr: " ++ stderr)))

/-- The terminal record RQ writes for a job once the enqueued call
`execute_rust_worker(job_payload)` ends: a normal return marks the job
finished with the return value as result; a raised exception marks it
failed with the exception's message recorded (inside `exc_info`), and no
result. -/
structure JobFinal where
  status : String
  result : Option Json
  error : Option String

/-- Modelled RQ worker semantics: translate the call's outcome into the
terminal job record. -/
def recordOutcome : Except WorkerError Json → JobFinal
  | .ok v => { status := "finished", result := some v, error := none }
  | .error e => { status := "failed", result := none, error := some (workerErrorMessage e) }

/-- An RQ job as stored in Redis, restricted to the fields app.py reads
or that enqueueing writes: id, status (`job.get_status()`), the
timestamps as ISO strings (None when unset), and the enqueued call's
argument (`job_payload`). -/
structure JobRecord where
  id : String
  status : String
  created_at : Option String
  enqueued_at : Option String
  started_at : Option String
  ended_at : Option String
  payload : Json

/-- The Redis-backed state shared by app.py and the RQ workers:
`records` is every job hash known to Redis, `pending` is the queue's own
list `rq:queue:<name>` of job ids awaiting a worker. RQ semantics: a
worker removes a job's id from `pending` when it dequeues the job, so
ids of started, finished and failed jobs are no longer in `pending`. -/
structure Store where
  records : List JobRecord
  pending : List String

/-- RQ's `queue.jobs` property: fetch the jobs whose ids are in the
queue's pending list, dropping ids whose job hash is gone. -/
def queueJobs (s : Store) : List JobRecord :=
  s.pending.filterMap (fun i => s.records.find? (fun r => r.id == i))

/-- The four-field projection built for each job by `list_jobs`
(app.py lines 35-40); the structure's fields are exactly the keys of the
dict appended there. -/
structure JobProjection where
  id : String
  status : String
  created_at : Option String
  enqueued_at : Option String
deriving DecidableEq

/-- The dict literal of app.py lines 35-40. -/
def projOf (j : JobRecord) : JobProjection :=
  { id := j.id, status := j.status, created_at := j.created_at, enqueued_at := j.enqueued_at }

/-- Shallow embedding of the `GET /api/jobs` handler `list_jobs`
(app.py lines 30-42): iterate `queue.jobs` and project each job. -/
def list_jobs (s : Store) : List JobProjection :=
  (queueJobs s).map projOf

/-- The RQ store invariants relevant here: every pending id belongs to a
job that is still queued, every queued job's id is pending, and job ids
are unique (they are uuid4 strings). -/
def wellFormed (s : Store) : Prop :=
  (∀ i ∈ s.pending, ∃ r ∈ s.records, r.id = i ∧ r.status = "queued") ∧
  (∀ r ∈ s.records, r.status = "queued" → r.id ∈ s.pending) ∧
  s.records.Pairwise (fun a b => a.id ≠ b.id)

/-- The job created by `queue.enqueue(execute_rust_worker, job_payload,
job_timeout=...)`: a fresh uuid id, status queued, created_at and
enqueued_at set to the current time, no started_at/ended_at yet, and the
argument recorded. -/
def newJob (freshId now : String) (payload : Json) : JobRecord :=
  { id := freshId, status := "queued", created_at := some now, enqueued_at := some now,
    started_at := none, ended_at := none, payload := payload }

/-- Modelled RQ `queue.enqueue`: persist the job hash and push its id
onto the queue's pending list. -/
def rqEnqueue (s : Store) (j : JobRecord) : Store :=
  { records := s.records ++ [j], pending := s.pending ++ [j.id] }

/-- Responses of the `POST /api/enqueue` handler: a 400 with an error
message, or the 200 dict `(job_id, status, payload)` of app.py
lines 119-123. -/
inductive EnqueueResponse where
  | badRequest (error : String)
  | ok (job_id : String) (status : String) (payload : Json)

/-- Shallow embedding of the `POST /api/enqueue` handler `enqueue_job`
(app.py lines 92-123). The request body is `request.get_json()`: `none`
when no JSON body is present, otherwise the parsed JSON object (the
handler is only exercised with object bodies; `if not data` is Python
truthiness, which for a dict means emptiness). `freshId` is the uuid RQ
generates for the job and `now` the enqueue time. The required-field
loop checks task, input_path, output_path in that order and answers 400
for the first one missing; otherwise the normalized `job_payload` is
built (params defaulting to the empty dict), the job is enqueued, and
the response echoes id, status and payload. -/
def enqueue_job (s : Store) (freshId now : String) (body : Option (List (String × Json))) :
    EnqueueResponse × Store :=
  match body with
  | none => (.badRequest "No JSON data provided", s)
  | some data =>
    if data.isEmpty then
      (.badRequest "No JSON data provided", s)
    else
      match getField data "task", getField data "input_path", getField data "output_path" with
      | none, _, _ => (.badRequest "Missing required field: task", s)
      | some _, none, _ => (.badRequest "Missing required field: input_path", s)
      | some _, some _, none => (.badRequest "Missing required field: output_path", s)
      | some task, some input_path, some output_path =>
          let job_payload : Json := .obj [("task", task), ("input_path", input_path),
            ("output_path", output_path), ("params", (getField data "params").getD (.obj []))]
          let job := newJob freshId now job_payload
          (.ok job.id job.status job_payload, rqEnqueue s job)

/-- `pathlib.PurePath.suffix` of a file name: the part from the last dot
on, provided that dot is neither the first nor the last character. -/
def pathSuffix (name : String) : String :=
  let cs := name.toList
  match (List.range cs.length).filter (fun i => cs.getD i ' ' = '.') |>.getLast? with
  | none => ""
  | some i => if 0 < i ∧ i + 1 < cs.length then String.mk (cs.drop i) else ""

/-- The parts of a `POST /api/process` request the handler reads:
whether a `file` part is present, its client-side filename, and the
`task` and `params` form fields (`none` when absent). -/
structure UploadRequest where
  hasFile : Bool
  filename : String
  task : Option String
  params : Option String

/-- The storage directories from shared configuration
(`config["storage"]["input_path"]`, `config["storage"]["output_path"]`). -/
structure AppConfig where
  inputDir : String
  outputDir : String

/-- Responses of the `POST /api/process` handler: a 400 with an error
message, or the 200 dict of app.py lines 168-173. -/
inductive ProcessResponse where
  | badRequest (error : String)
  | ok (job_id : String) (status : String) (input_path : String) (output_path : String)

/-- Shallow embedding of the `POST /api/process` handler `process_file`
(app.py lines 126-173). `freshFileId` is the uuid for the stored file,
`freshJobId` the uuid RQ generates for the job, `parse` the behaviour of
`json.loads` on form data. Saving the uploaded file to disk is an effect
outside the store model. `if not task` is Python truthiness (None or the
empty string). The `params` form field defaults to the string of an
empty dict literal, and a `json.JSONDecodeError` while parsing it is
swallowed, replacing `params_dict` by the empty dict (app.py
lines 148-151). -/
def process_file (s : Store) (cfg : AppConfig) (freshFileId freshJobId now : String)
    (parse : String → Option Json) (req : UploadRequest) : ProcessResponse × Store :=
  if !req.hasFile then
    (.badRequest "No file provided", s)
  else
    match req.task with
    | none => (.badRequest "No task specified", s)
    | some task =>
      if task = "" then
        (.badRequest "No task specified", s)
      else
        let file_ext := pathSuffix req.filename
        let input_path := cfg.inputDir ++ "/" ++ (freshFileId ++ file_ext)
        let output_path := cfg.outputDir ++ "/" ++ (freshFileId ++ "_output" ++ file_ext)
        let params_dict : Json := (parse (req.params.getD "\x7b\x7d")).getD (.obj [])
        let job_payload : Json := .obj [("task", .str task), ("input_path", .str input_path),
          ("output_path", .str output_path), ("params", params_dict)]
        let job := newJob freshJobId now job_payload
        (.ok job.id job.status input_path output_path, rqEnqueue s job)

/-! Concrete inputs used to instantiate the theorems below. -/

/-- The worker binary path of worker.py line 10, relative to the repo. -/
def demoWorkerPath : String := "rust_worker/target/release/rust_worker"

/-- The stdout text of spec §8's success example. -/
def successStdout : String := "\x7b\"success\":true,\"hash\":\"abc\"\x7d"

/-- The JSON value `successStdout` parses to. -/
def successJson : Json := .obj [("success", .bool true), ("hash", .str "abc")]

/-- The stdout text of spec §8's failure example. -/
def badInputStdout : String := "\x7b\"message\":\"bad input\"\x7d"

/-- The JSON value `badInputStdout` parses to. -/
def badInputJson : Json := .obj [("message", .str "bad input")]

/-- A concrete `json.loads` behaviour covering the two example documents;
every other string is unparsable. -/
def demoParse : String → Option Json := fun s =>
  if s = successStdout then some successJson
  else if s = badInputStdout then some badInputJson
  else none

/-- Environment of the success example: binary present, exit 0,
parsable stdout. -/
def c3env : WorkerEnv :=
  { workerExists := true, rust_worker_path := demoWorkerPath, timeout_seconds := 5,
    parse := demoParse, outcome := .exited 0 successStdout "" }

/-- Environment with exit 0 but unparsable stdout. -/
def c4env : WorkerEnv :=
  { workerExists := true, rust_worker_path := demoWorkerPath, timeout_seconds := 5,
    parse := demoParse, outcome := .exited 0 "PROCESSED 42 frames" "warning: slow disk" }

/-- Environment whose process never exits within the 5s budget. -/
def c5env : WorkerEnv :=
  { workerExists := true, rust_worker_path := demoWorkerPath, timeout_seconds := 5,
    parse := demoParse, outcome := .timedOut }

/-- Environment whose worker binary is missing. -/
def c6env : WorkerEnv :=
  { workerExists := false, rust_worker_path := demoWorkerPath, timeout_seconds := 5,
    parse := demoParse, outcome := .exited 0 successStdout "" }

/-- Environment of the failure example: exit 1 with a parsable
`message` document on stdout. -/
def c1env : WorkerEnv :=
  { workerExists := true, rust_worker_path := demoWorkerPath, timeout_seconds := 5,
    parse := demoParse, outcome := .exited 1 badInputStdout "" }

/-- Environment with a non-zero exit and unparsable stdout. -/
def c10env : WorkerEnv :=
  { workerExists := true, rust_worker_path := demoWorkerPath, timeout_seconds := 5,
    parse := demoParse, outcome := .exited 3 "segfault" "core dumped" }

/-- A store holding one finished job that is (per RQ semantics) no
longer in the queue's pending list. -/
def c2record : JobRecord :=
  { id := "job-f", status := "finished", created_at := some "2026-01-01T00:00:00",
    enqueued_at := some "2026-01-01T00:00:00", started_at := some "2026-01-01T00:00:01",
    ended_at := some "2026-01-01T00:00:02", payload := Json.obj [] }

/-- Store whose only known job is the finished `c2record`. -/
def c2store : Store := { records := [c2record], pending := [] }

/-- A queued job still awaiting a worker. -/
def c2qrecord : JobRecord :=
  { id := "job-q", status := "queued", created_at := some "2026-01-02T00:00:00",
    enqueued_at := some "2026-01-02T00:00:00", started_at := none, ended_at := none,
    payload := Json.obj [] }

/-- Store whose only known job is the queued `c2qrecord`. -/
def c2qstore : Store := { records := [c2qrecord], pending := ["job-q"] }

/-- The empty store. -/
def emptyStore : Store := { records := [], pending := [] }

/-- A complete submission body for `/api/enqueue`. -/
def c8data : List (String × Json) :=
  [("task", .str "transcode_h264_to_h265"), ("input_path", .str "storage/input/a.mp4"),
   ("output_path", .str "storage/output/a.mp4"), ("params", .obj [("crf", .num 28)])]

/-- The storage directories of config/settings.toml as read by app.py. -/
def demoConfig : AppConfig := { inputDir := "storage/input", outputDir := "storage/output" }

/-- An upload request whose `params` form field is present but is not
valid JSON. -/
def c9req : UploadRequest :=
  { hasFile := true, filename := "clip.mp4", task := some "resize_to_720p",
    params := some "not json" }

/-! Theorems. -/

/-- C3: whenever the worker binary exists, the process exits with code 0
and its stdout parses as JSON, `execute_rust_worker` returns the parsed
value verbatim as the job result. -/
theorem c3_success_returns_parsed_stdout (env : WorkerEnv) (payload : Json)
    (stdout stderr : String) (j : Json)
    (hex : env.workerExists = true)
    (hout : env.outcome = .exited 0 stdout stderr)
    (hparse : env.parse stdout = some j) :
    execute_rust_worker env payload = .ok j := by
  simp [execute_rust_worker, hex, hout, hparse]

/-- C3 witness: the spec §8 example, exit 0 with stdout
`\x7b"success":true,"hash":"abc"\x7d`, yields exactly that document. -/
theorem c3_success_returns_parsed_stdout_witness :
    execute_rust_worker c3env (Json.obj []) = .ok successJson :=
  c3_success_returns_parsed_stdout c3env (Json.obj []) successStdout "" successJson rfl rfl rfl

/-- C4: whenever the worker binary exists, the process exits with code 0
and its stdout does not parse as JSON, the call succeeds (the job is
recorded finished, not failed) and returns the degraded success envelope
carrying the raw stdout and stderr text. -/
theorem c4_degraded_success_envelope (env : WorkerEnv) (payload : Json)
    (stdout stderr : String)
    (hex : env.workerExists = true)
    (hout : env.outcome = .exited 0 stdout stderr)
    (hparse : env.parse stdout = none) :
    execute_rust_worker env payload =
      .ok (.obj [("success", .bool true), ("message", .str "Job completed"),
        ("output", .str stdout), ("stderr", .str stderr)]) ∧
    (recordOutcome (execute_rust_worker env payload)).status = "finished" := by
  have h : execute_rust_worker env payload =
      .ok (.obj [("success", .bool true), ("message", .str "Job completed"),
        ("output", .str stdout), ("stderr", .str stderr)]) := by
    simp [execute_rust_worker, hex, hout, hparse]
  exact ⟨h, by rw [h]; rfl⟩

/-- C4 witness: exit 0 with the unparsable stdout
`PROCESSED 42 frames` yields the degraded envelope. -/
theorem c4_degraded_success_envelope_witness :
    execute_rust_worker c4env (Json.obj []) =
      .ok (.obj [("success", .bool true), ("message", .str "Job completed"),
        ("output", .str "PROCESSED 42 frames"), ("stderr", .str "warning: slow disk")]) ∧
    (recordOutcome (execute_rust_worker c4env (Json.obj []))).status = "finished" :=
  c4_degraded_success_envelope c4env (Json.obj []) "PROCESSED 42 frames" "warning: slow disk"
    rfl rfl rfl

/-- C5: whenever the worker binary exists and the process has not exited
within the configured timeout (`subprocess.run` kills it and raises
`TimeoutExpired`), the call fails with the timed-out error naming the
single configured duration, no result is produced for the job, and the
outcome is independent of the submitted payload (the budget is not
per-task). -/
theorem c5_timeout_error (env : WorkerEnv) (payload : Json)
    (hex : env.workerExists = true)
    (hout : env.outcome = .timedOut) :
    execute_rust_worker env payload =
      .error (.runtimeError ("Job timed out after " ++ toString env.timeout_seconds ++ " seconds")) ∧
    (recordOutcome (execute_rust_worker env payload)).status = "failed" ∧
    (recordOutcome (execute_rust_worker env payload)).result = none ∧
    ∀ payload2 : Json, execute_rust_worker env payload2 = execute_rust_worker env payload := by
  have h : execute_rust_worker env payload =
      .error (.runtimeError ("Job timed out after " ++ toString env.timeout_seconds ++ " seconds")) := by
    simp [execute_rust_worker, hex, hout]
  refine ⟨h, by rw [h]; rfl, by rw [h]; rfl, fun payload2 => ?_⟩
  rw [h]; simp [execute_rust_worker, hex, hout]

/-- C5 witness: a worker that never exits within the configured 5s
budget yields the timed-out failure and no result. -/
theorem c5_timeout_error_witness :
    execute_rust_worker c5env (Json.obj []) =
      .error (.runtimeError ("Job timed out after " ++ toString c5env.timeout_seconds ++ " seconds")) ∧
    (recordOutcome (execute_rust_worker c5env (Json.obj []))).status = "failed" ∧
    (recordOutcome (execute_rust_worker c5env (Json.obj []))).result = none ∧
    ∀ payload2 : Json, execute_rust_worker c5env payload2 = execute_rust_worker c5env (Json.obj []) :=
  c5_timeout_error c5env (Json.obj []) rfl rfl

/-- C6: whenever the worker binary path does not exist, the call fails
with the `FileNotFoundError` (the spec's ExecutorUnavailable condition),
raised before the `try` block, hence before any process is spawned and
before any timeout clock starts; the result is independent of whatever
the process would have done, so no process is ever consulted for that
job. -/
theorem c6_executor_unavailable (env : WorkerEnv) (payload : Json)
    (hex : env.workerExists = false) :
    execute_rust_worker env payload =
      .error (.fileNotFound ("Rust worker binary not found at " ++ env.rust_worker_path ++
        ". Please build it first with: cd rust_worker && cargo build --release")) ∧
    (recordOutcome (execute_rust_worker env payload)).status = "failed" ∧
    ∀ o1 o2 : ProcOutcome,
      execute_rust_worker { env with outcome := o1 } payload =
        execute_rust_worker { env with outcome := o2 } payload := by
  have h : ∀ o : ProcOutcome, execute_rust_worker { env with outcome := o } payload =
      .error (.fileNotFound ("Rust worker binary not found at " ++ env.rust_worker_path ++
        ". Please build it first with: cd rust_worker && cargo build --release")) := by
    intro o; simp [execute_rust_worker, hex]
  have h0 : execute_rust_worker env payload =
      .error (.fileNotFound ("Rust worker binary not found at " ++ env.rust_worker_path ++
        ". Please build it first with: cd rust_worker && cargo build --release")) := by
    simp [execute_rust_worker, hex]
  exact ⟨h0, by rw [h0]; rfl, fun o1 o2 => by rw [h o1, h o2]⟩

/-- C6 witness: with the binary missing, the call fails with the
executor-unavailable error and ignores the process behaviour. -/
theorem c6_executor_unavailable_witness :
    execute_rust_worker c6env (Json.obj []) =
      .error (.fileNotFound ("Rust worker binary not found at " ++ c6env.rust_worker_path ++
        ". Please build it first with: cd rust_worker && cargo build --release")) ∧
    (recordOutcome (execute_rust_worker c6env (Json.obj []))).status = "failed" ∧
    ∀ o1 o2 : ProcOutcome,
      execute_rust_worker { c6env with outcome := o1 } (Json.obj []) =
        execute_rust_worker { c6env with outcome := o2 } (Json.obj []) :=
  c6_executor_unavailable c6env (Json.obj []) rfl

/-- C10: whenever the worker binary exists and the process exits with a
non-zero code — stdout parsable or not — the raised error is the single
uniform `RuntimeError` kind and its message carries the prefix
`Failed to execute Rust worker: ` added by the catch-all handler that
re-wraps the errors of the non-zero-exit branch. -/
theorem c10_nonzero_exit_wrapped (env : WorkerEnv) (payload : Json)
    (rc : Int) (stdout stderr : String)
    (hex : env.workerExists = true)
    (hout : env.outcome = .exited rc stdout stderr)
    (hrc : rc ≠ 0) :
    ∃ rest : String, execute_rust_worker env payload =
      .error (.runtimeError ("Failed to execute Rust worker: " ++ rest)) := by
  cases hparse : env.parse stdout with
  | none =>
    exact ⟨"Rust worker failed with exit code " ++ toString rc ++
      "\nstdout: " ++ stdout ++ "\nstderr: " ++ stderr,
      by simp [execute_rust_worker, hex, hout, hrc, hparse]⟩
  | some j =>
    cases j with
    | null =>
      exact ⟨"'" ++ pyTypeName Json.null ++ "' object has no attribute 'get'",
        by simp [execute_rust_worker, hex, hout, hrc, hparse]⟩
    | bool b =>
      exact ⟨"'" ++ pyTypeName (Json.bool b) ++ "' object has no attribute 'get'",
        by simp [execute_rust_worker, hex, hout, hrc, hparse]⟩
    | num n =>
      exact ⟨"'" ++ pyTypeName (Json.num n) ++ "' object has no attribute 'get'",
        by simp [execute_rust_worker, hex, hout, hrc, hparse]⟩
    | str s =>
      exact ⟨"'" ++ pyTypeName (Json.str s) ++ "' object has no attribute 'get'",
        by simp [execute_rust_worker, hex, hout, hrc, hparse]⟩
    | arr xs =>
      exact ⟨"'" ++ pyTypeName (Json.arr xs) ++ "' object has no attribute 'get'",
        by simp [execute_rust_worker, hex, hout, hrc, hparse]⟩
    | obj fields =>
      exact ⟨"Rust worker failed: " ++ pyStr ((getField fields "message").getD (.str "Unknown error")),
        by simp [execute_rust_worker, hex, hout, hrc, hparse]⟩

/-- C10 witness: exit code 3 with unparsable stdout yields a
`RuntimeError` message carrying the catch-all prefix. -/
theorem c10_nonzero_exit_wrapped_witness :
    ∃ rest : String, execute_rust_worker c10env (Json.obj []) =
      .error (.runtimeError ("Failed to execute Rust worker: " ++ rest)) :=
  c10_nonzero_exit_wrapped c10env (Json.obj []) 3 "segfault" "core dumped" rfl rfl (by decide)

/-- C1 counterexample: at the spec §8 failure example (binary present,
exit 1, stdout the parsable document carrying message "bad input") the
job is indeed recorded failed, but the stored error message is the
doubly wrapped `Failed to execute Rust worker: Rust worker failed: bad
input`, not exactly the `message` field's text `bad input`: the `raise`
at worker.py line 50 is re-caught by the catch-all at line 62. -/
theorem c1_message_not_stored_verbatim :
    c1env.workerExists = true ∧
    c1env.outcome = .exited 1 badInputStdout "" ∧
    c1env.parse badInputStdout = some (Json.obj [("message", Json.str "bad input")]) ∧
    recordOutcome (execute_rust_worker c1env (Json.obj [])) =
      { status := "failed", result := none,
        error := some "Failed to execute Rust worker: Rust worker failed: bad input" } ∧
    "Failed to execute Rust worker: Rust worker failed: bad input" ≠ "bad input" := by
  refine ⟨rfl, rfl, rfl, rfl, by decide⟩

/-- C1 amended: for every invocation in which the binary exists and the
process exits non-zero writing a JSON object with a `message` field to
stdout, the job is recorded failed and the stored error message is the
field's text wrapped as `Failed to execute Rust worker: Rust worker
failed: <text>` by the catch-all handler. -/
theorem c1_amended_wrapped_failure_message (env : WorkerEnv) (payload : Json)
    (rc : Int) (stdout stderr : String) (fields : List (String × Json)) (msg : String)
    (hex : env.workerExists = true)
    (hout : env.outcome = .exited rc stdout stderr)
    (hrc : rc ≠ 0)
    (hparse : env.parse stdout = some (.obj fields))
    (hmsg : getField fields "message" = some (.str msg)) :
    recordOutcome (execute_rust_worker env payload) =
      { status := "failed", result := none,
        error := some ("Failed to execute Rust worker: " ++ ("Rust worker failed: " ++ msg)) } := by
  simp [execute_rust_worker, recordOutcome, workerErrorMessage, hex, hout, hrc, hparse, hmsg, pyStr]

/-- C1 amended witness: the spec §8 failure example yields the wrapped
message. -/
theorem c1_amended_wrapped_failure_message_witness :
    recordOutcome (execute_rust_worker c1env (Json.obj [])) =
      { status := "failed", result := none,
        error := some ("Failed to execute Rust worker: " ++ ("Rust worker failed: " ++ "bad input")) } :=
  c1_amended_wrapped_failure_message c1env (Json.obj []) 1 badInputStdout ""
    [("message", Json.str "bad input")] "bad input" rfl rfl (by decide) rfl rfl

/-- C7: a submission body (a JSON object) missing any of task,
input_path or output_path is answered with a validation failure and the
store is left unchanged — no job is enqueued and no job id is
produced. -/
theorem c7_missing_field_rejected (s : Store) (freshId now : String)
    (data : List (String × Json))
    (h : getField data "task" = none ∨ getField data "input_path" = none ∨
      getField data "output_path" = none) :
    ∃ msg, enqueue_job s freshId now (some data) = (.badRequest msg, s) := by
  by_cases hempty : data.isEmpty
  · exact ⟨"No JSON data provided", by simp [enqueue_job, hempty]⟩
  · rcases h with h | h | h
    · exact ⟨"Missing required field: task", by simp [enqueue_job, hempty, h]⟩
    · cases ht : getField data "task" with
      | none => exact ⟨"Missing required field: task", by simp [enqueue_job, hempty, ht]⟩
      | some t =>
        exact ⟨"Missing required field: input_path", by simp [enqueue_job, hempty, ht, h]⟩
    · cases ht : getField data "task" with
      | none => exact ⟨"Missing required field: task", by simp [enqueue_job, hempty, ht]⟩
      | some t =>
        cases hip : getField data "input_path" with
        | none =>
          exact ⟨"Missing required field: input_path", by simp [enqueue_job, hempty, ht, hip]⟩
        | some ip =>
          exact ⟨"Missing required field: output_path", by simp [enqueue_job, hempty, ht, hip, h]⟩

/-- C7 witness: a body carrying only a task is rejected and the empty
store is unchanged. -/
theorem c7_missing_field_rejected_witness :
    ∃ msg, enqueue_job emptyStore "job-1" "2026-01-01T00:00:00"
      (some [("task", Json.str "resize_to_720p")]) = (.badRequest msg, emptyStore) :=
  c7_missing_field_rejected emptyStore "job-1" "2026-01-01T00:00:00"
    [("task", Json.str "resize_to_720p")] (Or.inr (Or.inl rfl))

/-- C8: a submission body containing task, input_path and output_path is
answered with the fresh job id, status queued, and a payload echoing the
submitted task, input_path, output_path and params (params defaulting to
the empty mapping), while the job is enqueued in the store. -/
theorem c8_valid_submission_queued (s : Store) (freshId now : String)
    (data : List (String × Json)) (task input_path output_path : Json)
    (ht : getField data "task" = some task)
    (hip : getField data "input_path" = some input_path)
    (hop : getField data "output_path" = some output_path) :
    enqueue_job s freshId now (some data) =
      (.ok freshId "queued"
        (.obj [("task", task), ("input_path", input_path), ("output_path", output_path),
          ("params", (getField data "params").getD (.obj []))]),
       rqEnqueue s (newJob freshId now
        (.obj [("task", task), ("input_path", input_path), ("output_path", output_path),
          ("params", (getField data "params").getD (.obj []))]))) := by
  have hempty : data.isEmpty = false := by
    cases data with
    | nil => simp [getField] at ht
    | cons a l => rfl
  simp [enqueue_job, hempty, ht, hip, hop, newJob]

/-- C8 witness: the complete submission `c8data` is enqueued and echoed
with status queued. -/
theorem c8_valid_submission_queued_witness :
    enqueue_job emptyStore "job-2" "2026-01-01T00:00:00" (some c8data) =
      (.ok "job-2" "queued"
        (.obj [("task", .str "transcode_h264_to_h265"),
          ("input_path", .str "storage/input/a.mp4"),
          ("output_path", .str "storage/output/a.mp4"),
          ("params", .obj [("crf", .num 28)])]),
       rqEnqueue emptyStore (newJob "job-2" "2026-01-01T00:00:00"
        (.obj [("task", .str "transcode_h264_to_h265"),
          ("input_path", .str "storage/input/a.mp4"),
          ("output_path", .str "storage/output/a.mp4"),
          ("params", .obj [("crf", .num 28)])]))) :=
  c8_valid_submission_queued emptyStore "job-2" "2026-01-01T00:00:00" c8data
    (.str "transcode_h264_to_h265") (.str "storage/input/a.mp4") (.str "storage/output/a.mp4")
    rfl rfl rfl

/-- C9: an upload-and-process request carrying a file and a task whose
`params` form field is present but unparsable is not rejected: the job
is enqueued anyway with its params silently replaced by the empty
mapping, and the response is the success dict. -/
theorem c9_unparsable_params_replaced (s : Store) (cfg : AppConfig)
    (freshFileId freshJobId now : String) (parse : String → Option Json)
    (req : UploadRequest) (task p : String)
    (hf : req.hasFile = true)
    (htask : req.task = some task)
    (hne : task ≠ "")
    (hp : req.params = some p)
    (hbad : parse p = none) :
    process_file s cfg freshFileId freshJobId now parse req =
      (.ok freshJobId "queued"
        (cfg.inputDir ++ "/" ++ (freshFileId ++ pathSuffix req.filename))
        (cfg.outputDir ++ "/" ++ (freshFileId ++ "_output" ++ pathSuffix req.filename)),
       rqEnqueue s (newJob freshJobId now
        (.obj [("task", .str task),
          ("input_path", .str (cfg.inputDir ++ "/" ++ (freshFileId ++ pathSuffix req.filename))),
          ("output_path", .str (cfg.outputDir ++ "/" ++ (freshFileId ++ "_output" ++ pathSuffix req.filename))),
          ("params", .obj [])]))) := by
  simp [process_file, hf, htask, hne, hp, hbad, newJob]

/-- C9 witness: uploading `clip.mp4` with task resize_to_720p and the
unparsable params string `not json` still enqueues the job, with empty
params. -/
theorem c9_unparsable_params_replaced_witness :
    process_file emptyStore demoConfig "file-1" "job-3" "2026-01-01T00:00:00" demoParse c9req =
      (.ok "job-3" "queued"
        (demoConfig.inputDir ++ "/" ++ ("file-1" ++ pathSuffix c9req.filename))
        (demoConfig.outputDir ++ "/" ++ ("file-1" ++ "_output" ++ pathSuffix c9req.filename)),
       rqEnqueue emptyStore (newJob "job-3" "2026-01-01T00:00:00"
        (.obj [("task", .str "resize_to_720p"),
          ("input_path", .str (demoConfig.inputDir ++ "/" ++ ("file-1" ++ pathSuffix c9req.filename))),
          ("output_path", .str (demoConfig.outputDir ++ "/" ++ ("file-1" ++ "_output" ++ pathSuffix c9req.filename))),
          ("params", .obj [])]))) :=
  c9_unparsable_params_replaced emptyStore demoConfig "file-1" "job-3" "2026-01-01T00:00:00"
    demoParse c9req "resize_to_720p" "not json" rfl rfl (by decide) rfl rfl

/-- In a record list with pairwise distinct ids, `find?` at a member's
id returns exactly that member. -/
theorem find_of_mem_unique_id (l : List JobRecord) (r : JobRecord) (i : String)
    (hu : l.Pairwise (fun a b => a.id ≠ b.id)) (hr : r ∈ l) (hid : r.id = i) :
    l.find? (fun x => x.id == i) = some r := by
  induction l with
  | nil => cases hr
  | cons a t ih =>
    rcases List.mem_cons.mp hr with h | h
    · subst h
      exact List.find?_cons_of_pos _ (by simp [hid])
    · have hne : a.id ≠ i := by
        have := (List.pairwise_cons.mp hu).1 r h
        rw [hid] at this
        exact this
      rw [List.find?_cons_of_neg _ (by simp [hne])]
      exact ih (List.pairwise_cons.mp hu).2 h

/-- In a record list with pairwise distinct ids, two members sharing an
id are the same record. -/
theorem mem_unique_id (l : List JobRecord) (r r' : JobRecord)
    (hu : l.Pairwise (fun a b => a.id ≠ b.id)) (h1 : r ∈ l) (h2 : r' ∈ l)
    (hid : r.id = r'.id) : r = r' := by
  induction l with
  | nil => cases h1
  | cons a t ih =>
    rcases List.mem_cons.mp h1 with ha | ha <;> rcases List.mem_cons.mp h2 with hb | hb
    · rw [ha, hb]
    · subst ha
      exact absurd hid ((List.pairwise_cons.mp hu).1 r' hb)
    · subst hb
      exact absurd hid.symm ((List.pairwise_cons.mp hu).1 r ha)
    · exact ih (List.pairwise_cons.mp hu).2 ha hb

/-- C2 counterexample: `c2store` satisfies the RQ store invariants and
knows the finished job `c2record`, yet `list_jobs` returns no projection
at all — `queue.jobs` only ever yields jobs still in the queue's pending
list, so a finished (or started, or failed) job is absent from the
listing, contradicting "for every job currently known to the store,
whatever its status". -/
theorem c2_finished_job_not_listed :
    wellFormed c2store ∧
    c2record ∈ c2store.records ∧
    c2record.status = "finished" ∧
    list_jobs c2store = [] := by
  refine ⟨⟨?_, ?_, ?_⟩, ?_, rfl, rfl⟩
  · intro i hi
    simp [c2store] at hi
  · intro r hr hq
    simp [c2store] at hr
    rw [hr] at hq
    simp [c2record] at hq
  · simp [c2store]
  · simp [c2store]

/-- C2 amended: for every store satisfying the RQ invariants, `list_jobs`
returns, for every job currently pending in the queue (status queued) —
not for started, finished or failed jobs — a projection containing
exactly the fields id, status, created_at and enqueued_at, and nothing
else is returned. -/
theorem c2_amended_list_covers_pending (s : Store) (h : wellFormed s) :
    (∀ r ∈ s.records, r.status = "queued" → projOf r ∈ list_jobs s) ∧
    (∀ p ∈ list_jobs s, ∃ r ∈ s.records, r.status = "queued" ∧ p = projOf r) := by
  obtain ⟨h1, h2, h3⟩ := h
  constructor
  · intro r hr hq
    have hp : r.id ∈ s.pending := h2 r hr hq
    have hf : s.records.find? (fun x => x.id == r.id) = some r :=
      find_of_mem_unique_id s.records r r.id h3 hr rfl
    unfold list_jobs queueJobs
    exact List.mem_map_of_mem projOf (List.mem_filterMap.mpr ⟨r.id, hp, hf⟩)
  · intro p hp
    unfold list_jobs queueJobs at hp
    rcases List.mem_map.mp hp with ⟨r, hrmem, hpe⟩
    rcases List.mem_filterMap.mp hrmem with ⟨i, hip, hfind⟩
    have hrrec : r ∈ s.records := List.mem_of_find?_eq_some hfind
    have hrid0 := List.find?_some hfind
    have hrid : r.id = i := eq_of_beq hrid0
    rcases h1 i hip with ⟨r', hr'mem, hr'id, hr'q⟩
    have heq : r = r' :=
      mem_unique_id s.records r r' h3 hrrec hr'mem (by rw [hrid, hr'id])
    exact ⟨r, hrrec, by rw [heq]; exact hr'q, hpe.symm⟩

/-- C2 amended witness: in the well-formed one-job store `c2qstore`, the
queued job is listed and every listed projection is that of a queued
job. -/
theorem c2_amended_list_covers_pending_witness :
    (∀ r ∈ c2qstore.records, r.status = "queued" → projOf r ∈ list_jobs c2qstore) ∧
    (∀ p ∈ list_jobs c2qstore, ∃ r ∈ c2qstore.records, r.status = "queued" ∧ p = projOf r) :=
  c2_amended_list_covers_pending c2qstore
    ⟨by
      intro i hi
      simp [c2qstore] at hi
      exact ⟨c2qrecord, by simp [c2qstore], by simp [c2qrecord, hi]⟩,
     by
      intro r hr hq
      simp [c2qstore] at hr
      simp [hr, c2qrecord, c2qstore],
     by simp [c2qstore]⟩

end MediaPipeline
